import Mathlib

/-
Shallow embedding of the watermark compositing engine in src/src/lib.rs
(crate fast-watermark).  Machine bytes (u8) are modelled as Fin 256,
u32/usize quantities as Nat with explicit wrap where it matters, i32 as Int,
and f32 arithmetic as exact rational arithmetic (the claims under scrutiny
only exercise values where the f32 computation is exact, or only the shape
of the formula matters).  Fallible operations return Except; operations
that can hit a Rust panic (checked arithmetic overflow, division by zero,
out-of-bounds indexing) return Option, with none standing for the panic.
External collaborators (image codec, base64 decoder, Lanczos resize, the
general rotation resampling core) are parameters, per the spec's
external-interface section.
-/

namespace FW

/-- RGBA8 raster: width, height, flat row-major byte buffer (4 bytes per
pixel), as in image::RgbaImage.  The length invariant data.length =
width*height*4 is maintained by the Rust types; reads below use getD and
writes use List.set, which agree with the Rust slice indexing whenever that
invariant holds. -/
structure Raster where
  width : Nat
  height : Nat
  data : List (Fin 256)
deriving DecidableEq

/-- Read one byte of a flat buffer as a rational, modelling `data[idx] as f32`. -/
def byteQ (l : List (Fin 256)) (i : Nat) : ℚ := ((l.getD i 0).val : ℚ)

/-- Rust `f32 as u8` cast: saturating at the bounds, truncating toward zero
(values here are never NaN).  Matches the spec: clamp to [0,255], truncate. -/
def f2u8 (q : ℚ) : Fin 256 :=
  if q < 0 then 0
  else if h : q < 255 then
    ⟨⌊q⌋.toNat, by
      have h2 : ⌊q⌋ < (255 : ℤ) := Int.floor_lt.mpr (by exact_mod_cast h)
      omega⟩
  else 255

/-- One pixel of the main blending loop of overlay_image_rgba_with_transparency
(lib.rs lines 351-376): load the four overlay and four target channels,
compute overlay_alpha = a/255 * transparency, blend RGB with
target*(1-alpha) + overlay*alpha, and accumulate alpha with the over
operator target_a + alpha*(255-target_a)/255, then store. -/
def blendWrite (odata : List (Fin 256)) (tau : ℚ) (oidx tidx : Nat)
    (tdata : List (Fin 256)) : List (Fin 256) :=
  let ovR := byteQ odata oidx
  let ovG := byteQ odata (oidx+1)
  let ovB := byteQ odata (oidx+2)
  let ovA := byteQ odata (oidx+3)
  let tgR := byteQ tdata tidx
  let tgG := byteQ tdata (tidx+1)
  let tgB := byteQ tdata (tidx+2)
  let tgA := byteQ tdata (tidx+3)
  let al := ovA / 255 * tau
  let inv := 1 - al
  ((((tdata.set tidx (f2u8 (tgR * inv + ovR * al))).set (tidx+1)
      (f2u8 (tgG * inv + ovG * al))).set (tidx+2)
      (f2u8 (tgB * inv + ovB * al))).set (tidx+3)
      (f2u8 (tgA + al * (255 - tgA) / 255)))

/-- One pixel of the trailing scalar loop (lib.rs lines 394-412): guarded by
alpha > 0, and it treats the alpha channel exactly like an RGB channel. -/
def blendWrite2 (odata : List (Fin 256)) (tau : ℚ) (oidx tidx : Nat)
    (tdata : List (Fin 256)) : List (Fin 256) :=
  let al := byteQ odata (oidx+3) / 255 * tau
  if 0 < al then
    let inv := 1 - al
    ((((tdata.set tidx (f2u8 (byteQ tdata tidx * inv + byteQ odata oidx * al))).set (tidx+1)
        (f2u8 (byteQ tdata (tidx+1) * inv + byteQ odata (oidx+1) * al))).set (tidx+2)
        (f2u8 (byteQ tdata (tidx+2) * inv + byteQ odata (oidx+2) * al))).set (tidx+3)
        (f2u8 (byteQ tdata (tidx+3) * inv + byteQ odata (oidx+3) * al)))
  else tdata

/-- Main per-row loop `while ox < (end_x - start_x)`; fuel is the number of
remaining iterations (end_x - start_x) - ox. -/
def blendRowLoop (odata : List (Fin 256)) (tau : ℚ) (orow trow : Nat) :
    Nat → Nat → List (Fin 256) → List (Fin 256)
  | 0, _, tdata => tdata
  | k+1, ox, tdata =>
      blendRowLoop odata tau orow trow k (ox+1)
        (blendWrite odata tau (orow + ox*4) (trow + ox*4) tdata)

/-- Trailing per-row loop, same bound and same running index ox as the main
loop; fuel again counts remaining iterations. -/
def blendRowLoop2 (odata : List (Fin 256)) (tau : ℚ) (orow trow : Nat) :
    Nat → Nat → List (Fin 256) → List (Fin 256)
  | 0, _, tdata => tdata
  | k+1, ox, tdata =>
      blendRowLoop2 odata tau orow trow k (ox+1)
        (blendWrite2 odata tau (orow + ox*4) (trow + ox*4) tdata)

/-- One row of the compositing loop: the main loop runs ox from 0 with bound
d = end_x - start_x, then the trailing loop resumes at ox = d with the same
bound, so its remaining-iteration fuel is d - d. -/
def blendRow (odata : List (Fin 256)) (tau : ℚ) (ow tw startX startY d oy : Nat)
    (tdata : List (Fin 256)) : List (Fin 256) :=
  let orow := oy * ow * 4
  let trow := (startY + oy) * tw * 4 + startX * 4
  blendRowLoop2 odata tau orow trow (d - d) d
    (blendRowLoop odata tau orow trow d 0 tdata)

/-- Row loop `for oy in 0..(end_y - start_y)`; fuel counts remaining rows. -/
def blendRows (odata : List (Fin 256)) (tau : ℚ) (ow tw startX startY d : Nat) :
    Nat → Nat → List (Fin 256) → List (Fin 256)
  | 0, _, tdata => tdata
  | k+1, oy, tdata =>
      blendRows odata tau ow tw startX startY d k (oy+1)
        (blendRow odata tau ow tw startX startY d oy tdata)

/-- Alpha Compositor, overlay_image_rgba_with_transparency (lib.rs 304-414).
start_x = x, start_y = y, end_x = min(x+ow, tw), end_y = min(y+oh, th), then
the nested pixel loops.  The two usize subtractions end_y - start_y and
end_x - start_x are unchecked in the source; when they underflow the Rust
program is in arithmetic-overflow error territory (debug builds abort at
the subtraction; release builds wrap and then index out of bounds on the
first touched pixel).  Either way the call does not return normally, which
the model renders as none.  The x-subtraction is only evaluated when the
row loop performs at least one iteration. -/
def overlay_image_rgba_with_transparency (target overlay : Raster)
    (x y : Nat) (tau : ℚ) : Option Raster :=
  if min (y + overlay.height) target.height < y then none
  else if 0 < min (y + overlay.height) target.height - y ∧
      min (x + overlay.width) target.width < x then none
  else some { target with data :=
      (blendRows overlay.data tau overlay.width target.width x y
        (min (x + overlay.width) target.width - x)
        (min (y + overlay.height) target.height - y) 0 target.data) }

/-- Policy (b) alpha accumulation, the standard over operator on the alpha
channel: a_t + alpha*(255 - a_t)/255 (spec section 4.4, policy (b)). -/
def alphaOverB (ta al : ℚ) : ℚ := ta + al * (255 - ta) / 255

/-- Straight source-over blend of one RGB channel: t*(1-alpha) + o*alpha. -/
def rgbOverB (tc oc al : ℚ) : ℚ := tc * (1 - al) + oc * al

/-- Per-pixel blend written purely with the named policy (b) formulas
(no trailing-loop variant): the formulation the spec calls policy (b). -/
def blendWriteB (odata : List (Fin 256)) (tau : ℚ) (oidx tidx : Nat)
    (tdata : List (Fin 256)) : List (Fin 256) :=
  let al := byteQ odata (oidx+3) / 255 * tau
  ((((tdata.set tidx (f2u8 (rgbOverB (byteQ tdata tidx) (byteQ odata oidx) al))).set (tidx+1)
      (f2u8 (rgbOverB (byteQ tdata (tidx+1)) (byteQ odata (oidx+1)) al))).set (tidx+2)
      (f2u8 (rgbOverB (byteQ tdata (tidx+2)) (byteQ odata (oidx+2)) al))).set (tidx+3)
      (f2u8 (alphaOverB (byteQ tdata (tidx+3)) al)))

/-- Single-pass row loop using only the policy (b) pixel blend. -/
def blendRowLoopB (odata : List (Fin 256)) (tau : ℚ) (orow trow : Nat) :
    Nat → Nat → List (Fin 256) → List (Fin 256)
  | 0, _, tdata => tdata
  | k+1, ox, tdata =>
      blendRowLoopB odata tau orow trow k (ox+1)
        (blendWriteB odata tau (orow + ox*4) (trow + ox*4) tdata)

/-- One row of the single-policy compositor: only the main loop, no
trailing scalar loop. -/
def blendRowB (odata : List (Fin 256)) (tau : ℚ) (ow tw startX startY d oy : Nat)
    (tdata : List (Fin 256)) : List (Fin 256) :=
  blendRowLoopB odata tau (oy * ow * 4) ((startY + oy) * tw * 4 + startX * 4) d 0 tdata

/-- Row iteration of the single-policy compositor. -/
def blendRowsB (odata : List (Fin 256)) (tau : ℚ) (ow tw startX startY d : Nat) :
    Nat → Nat → List (Fin 256) → List (Fin 256)
  | 0, _, tdata => tdata
  | k+1, oy, tdata =>
      blendRowsB odata tau ow tw startX startY d k (oy+1)
        (blendRowB odata tau ow tw startX startY d oy tdata)

/-- The compositor as it would read with a single uniform alpha policy,
namely policy (b), and no trailing scalar loop.  Claim C10 states the
source compositor coincides with this. -/
def overlayPolicyB (target overlay : Raster) (x y : Nat) (tau : ℚ) : Option Raster :=
  if min (y + overlay.height) target.height < y then none
  else if 0 < min (y + overlay.height) target.height - y ∧
      min (x + overlay.width) target.width < x then none
  else some { target with data :=
      (blendRowsB overlay.data tau overlay.width target.width x y
        (min (x + overlay.width) target.width - x)
        (min (y + overlay.height) target.height - y) 0 target.data) }

/-- Rust `(start..stop).step_by(step)`, fuel-based so it evaluates in the
kernel.  For step >= 1 the fuel stop - start is enough for every iteration;
the Rust iterator panics for step = 0, a case the callers below rule out
explicitly before building the range. -/
def stepRangeAux (step : Nat) : Nat → Nat → Nat → List Nat
  | 0, _, _ => []
  | fuel+1, start, stop =>
      if start < stop then start :: stepRangeAux step fuel (start + step) stop else []

/-- The list of x values visited by `(start..stop).step_by(step)`. -/
def stepRange (start stop step : Nat) : List Nat :=
  stepRangeAux step (stop - start) start stop

/-- Single-placement coordinate resolution (apply_watermark, lib.rs 482-492):
a non-negative offset is used as is; a negative offset is
max(0, dimension + offset).  The i32 arithmetic `dim as i32 + off` is exact
whenever dim < 2^31, which every wasm32 raster satisfies (the pixel buffer
of length dim*h*4 must fit in a 32-bit address space). -/
def resolveSingle (dim : Nat) (off : Int) : Nat :=
  if 0 ≤ off then off.toNat else (max ((dim : Int) + off) 0).toNat

/-- The exact sequence of (x, y) coordinates at which apply_watermark invokes
the Alpha Compositor (lib.rs 451-495).  Tiled: y outer loop, x inner loop,
spacing = overlay dimension + |offset| (i32 abs then cast to u32, which for
release builds is Int.natAbs on the whole i32 range), start = offset if
non-negative else 0.  Single: one invocation at the resolved coordinate. -/
def placements (imgW imgH wmW wmH : Nat) (xOff yOff : Int) (tile : Bool) :
    List (Nat × Nat) :=
  if tile then
    (stepRange (if 0 ≤ yOff then yOff.toNat else 0) imgH (wmH + yOff.natAbs)).flatMap
      (fun y => (stepRange (if 0 ≤ xOff then xOff.toNat else 0) imgW
        (wmW + xOff.natAbs)).map (fun x => (x, y)))
  else
    [(resolveSingle imgW xOff, resolveSingle imgH yOff)]

/-- WatermarkConfig (lib.rs 12-37): watermark_type plus optional layout and
image parameters.  f32 fields are modelled as rationals. -/
structure WatermarkConfig where
  watermark_type : String
  transparency : Option ℚ
  rotate : Option ℚ
  x_offset : Option Int
  y_offset : Option Int
  tile : Option Bool
  image_data : Option String
  width : Option Nat
  height : Option Nat
deriving DecidableEq

/-- The six distinct validation failures of validate_config.  Each tag stands
for the distinct message string built at the corresponding return site in
lib.rs 70-109 (the interpolation of the offending value into the message is
elided, since f32 formatting is not modelled). -/
inductive VErr where
  | invalidType
  | invalidTransparency
  | invalidRotation
  | missingWatermarkData
  | invalidWidth
  | invalidHeight
deriving DecidableEq

/-- Message text of each validation failure (constant part of the format!
string at the corresponding return site). -/
def vErrMsg : VErr → String
  | .invalidType => "Invalid watermark type. Must be text or image"
  | .invalidTransparency => "Transparency must be between 0.0 and 1.0"
  | .invalidRotation => "Rotation angle must be between -360 and 360 degrees"
  | .missingWatermarkData => "image_data parameter is required"
  | .invalidWidth => "Width must be greater than 0"
  | .invalidHeight => "Height must be greater than 0"

/-- validate_config (lib.rs 70-109): the five ordered checks, first failure
returned.  Present-and-out-of-range tests are written exactly as in the
source: transparency < 0.0 || transparency > 1.0, rotate < -360.0 ||
rotate > 360.0, width == 0, height == 0. -/
def validate_config (c : WatermarkConfig) : Except VErr Unit :=
  if ¬(c.watermark_type = "text" ∨ c.watermark_type = "image") then
    Except.error VErr.invalidType
  else if c.transparency.any fun t => decide (t < 0) || decide (1 < t) then
    Except.error VErr.invalidTransparency
  else if c.rotate.any fun r => decide (r < -360) || decide (360 < r) then
    Except.error VErr.invalidRotation
  else if c.image_data.isNone then
    Except.error VErr.missingWatermarkData
  else if c.width.any fun w => decide (w = 0) then
    Except.error VErr.invalidWidth
  else if c.height.any fun h => decide (h = 0) then
    Except.error VErr.invalidHeight
  else Except.ok ()

/-- Ordered rule list transcribed from spec section 4.1: each rule is a
passing condition paired with the error raised when it fails. -/
def specRules (c : WatermarkConfig) : List (Bool × VErr) :=
  [ (c.watermark_type = "text" ∨ c.watermark_type = "image", VErr.invalidType),
    (c.transparency.all fun t => decide (0 ≤ t) && decide (t ≤ 1), VErr.invalidTransparency),
    (c.rotate.all fun r => decide (-360 ≤ r) && decide (r ≤ 360), VErr.invalidRotation),
    (c.image_data.isSome, VErr.missingWatermarkData),
    (c.width.all fun w => decide (0 < w), VErr.invalidWidth),
    (c.height.all fun h => decide (0 < h), VErr.invalidHeight) ]

/-- First-failure semantics over an ordered rule list (spec section 4.1:
rules in this order, any failure stops processing). -/
def firstFailure : List (Bool × VErr) → Except VErr Unit
  | [] => Except.ok ()
  | (ok, e) :: rest => if ok then firstFailure rest else Except.error e

/-- The Config Validator as the spec words it: the ordered rules of
section 4.1 under first-failure semantics. -/
def spec_validate (c : WatermarkConfig) : Except VErr Unit :=
  firstFailure (specRules c)

/-- Rust u32 division, which panics on a zero divisor. -/
def checkedDiv (a b : Nat) : Option Nat :=
  if b = 0 then none else some (a / b)

/-- The resize-parameter computation of load_and_prepare_watermark
(lib.rs 168-175) for an image-type watermark whose config has width = w:
height = config.height.unwrap_or((orig_h * w) / orig_w) -- the unwrap_or
argument is evaluated eagerly, so the u32 division runs even when
config.height is present (u32 multiplication wraps mod 2^32 in release
builds); only afterwards is orig_w == 0 tested.  Result: none = panic,
error = the zero-width message, ok = (target width, target height) handed
to the resize primitive. -/
def prepare_size (origW origH w : Nat) (ch : Option Nat) :
    Option (Except String (Nat × Nat)) :=
  match checkedDiv (origH * w % 2^32) origW with
  | none => none
  | some q =>
      if origW = 0 then some (Except.error "Watermark image has zero width")
      else some (Except.ok (w, ch.getD q))

/-- Rotation Transform entry (rotate_image, lib.rs 242-301): an exact 0.0
angle returns a clone of the input; any other angle runs the bilinear
resampling core, which involves f32 trigonometry and is therefore kept as
an explicit parameter (it is irrelevant to every claim below). -/
def rotate_image (core : Raster → ℚ → Raster) (img : Raster) (angle : ℚ) : Raster :=
  if angle = 0 then img else core img angle

/-- External collaborators of the engine (spec section 6): the raster codec,
the base64 transport decoder, the Lanczos resize primitive, the bilinear
rotation resampling core, and the PNG encoder. -/
structure Ext where
  loadImage : List Nat → Except String Raster
  b64 : String → Except String (List Nat)
  resizeFit : Raster → Nat → Nat → Raster
  rotCore : Raster → ℚ → Raster
  encodePng : Raster → Except String (List Nat)

/-- Repeatedly drop a leading occurrence of pat, as Rust
trim_start_matches does; fuel bounds the number of rounds. -/
def stripRepeat (pat : List Char) : Nat → List Char → List Char
  | 0, l => l
  | k+1, l =>
      if pat ≠ [] ∧ pat.isPrefixOf l then stripRepeat pat k (l.drop pat.length)
      else l

/-- decode_base64_image (lib.rs 112-137): trim leading data:image/ prefixes,
split on commas and keep the element after the first comma (falling back to
the whole original string when there is none), reject an empty payload,
then run the external base64 decoder. -/
def decode_base64_image (ext : Ext) (image_data : String) : Except String (List Nat) :=
  let s1 : String := ⟨stripRepeat "data:image/".data image_data.data.length image_data.data⟩
  let base64_data := (s1.splitOn ",").getD 1 image_data
  if base64_data = "" then Except.error "Empty base64 data"
  else
    match ext.b64 base64_data with
    | Except.error e => Except.error ("Failed to decode base64: " ++ e)
    | Except.ok bs => Except.ok bs

/-- load_and_prepare_watermark (lib.rs 140-187): fetch image_data, base64
decode, codec decode, resize when the config is image-typed and has a
width (prepare_size above), rotate, convert to RGBA8 (identity here since
rasters are already RGBA8).  none = panic inside the sizing computation. -/
def load_and_prepare_watermark (ext : Ext) (config : WatermarkConfig) :
    Option (Except String Raster) :=
  match config.image_data with
  | none => some (Except.error "image_data parameter is required")
  | some image_data =>
    match decode_base64_image ext image_data with
    | Except.error e => some (Except.error e)
    | Except.ok bytes =>
      match ext.loadImage bytes with
      | Except.error e => some (Except.error ("Failed to load watermark image: " ++ e))
      | Except.ok img0 =>
        let sized : Option (Except String Raster) :=
          if config.watermark_type = "image" then
            match config.width with
            | some w =>
              match prepare_size img0.width img0.height w config.height with
              | none => none
              | some (Except.error e) => some (Except.error e)
              | some (Except.ok (tw, th)) => some (Except.ok (ext.resizeFit img0 tw th))
            | none => some (Except.ok img0)
          else some (Except.ok img0)
        match sized with
        | none => none
        | some (Except.error e) => some (Except.error e)
        | some (Except.ok img1) =>
          some (Except.ok (rotate_image ext.rotCore img1 (config.rotate.getD 0)))

/-- apply_watermark (lib.rs 424-498): validate, prepare the watermark,
read the placement parameters with their defaults, then either tile the
compositor over the placement grid or invoke it once at the resolved
coordinate.  A zero tile spacing makes Rust step_by panic (none); the
inner spacing is only constructed when the outer loop iterates. -/
def apply_watermark (ext : Ext) (img : Raster) (config : WatermarkConfig) :
    Option (Except String Raster) :=
  match validate_config config with
  | Except.error e => some (Except.error (vErrMsg e))
  | Except.ok _ =>
    match load_and_prepare_watermark ext config with
    | none => none
    | some (Except.error e) => some (Except.error e)
    | some (Except.ok wm) =>
      let transparency := config.transparency.getD (1/2)
      let xOff := config.x_offset.getD 10
      let yOff := config.y_offset.getD 10
      let tile := config.tile.getD false
      if tile then
        if wm.height + yOff.natAbs = 0 then none
        else if (if 0 ≤ yOff then yOff.toNat else 0) < img.height ∧
            wm.width + xOff.natAbs = 0 then none
        else
          match (placements img.width img.height wm.width wm.height xOff yOff true).foldlM
              (fun acc (p : Nat × Nat) =>
                overlay_image_rgba_with_transparency acc wm p.1 p.2 transparency) img with
          | none => none
          | some r => some (Except.ok r)
      else
        match overlay_image_rgba_with_transparency img wm
            (resolveSingle img.width xOff) (resolveSingle img.height yOff) transparency with
        | none => none
        | some r => some (Except.ok r)

/-- add_text_watermark (lib.rs 501-511): requires image_data, then the
shared apply_watermark. -/
def add_text_watermark (ext : Ext) (img : Raster) (config : WatermarkConfig) :
    Option (Except String Raster) :=
  if config.image_data.isNone then
    some (Except.error "Text watermark requires image_data parameter (rendered by client)")
  else apply_watermark ext img config

/-- add_image_watermark (lib.rs 514-519). -/
def add_image_watermark (ext : Ext) (img : Raster) (config : WatermarkConfig) :
    Option (Except String Raster) :=
  apply_watermark ext img config

/-- Prefix an error message, as the map_err(format!) wrappers do. -/
def mapErrPre (p : String) : Option (Except String Raster) → Option (Except String Raster)
  | none => none
  | some (Except.error e) => some (Except.error (p ++ e))
  | some (Except.ok r) => some (Except.ok r)

/-- The body shared verbatim by add_watermark (lib.rs 533-566) and
add_watermark_async (lib.rs 578-611): parse the config (the parse outcome
is passed in already performed, as the host glue is external), decode the
base raster, dispatch on watermark_type, and PNG-encode the result.
The two source functions duplicate this code token for token. -/
def watermarkCore (ext : Ext) (image_data : List Nat)
    (config_js : Except String WatermarkConfig) : Option (Except String (List Nat)) :=
  match config_js with
  | Except.error e => some (Except.error ("Failed to parse config: " ++ e))
  | Except.ok config =>
    match ext.loadImage image_data with
    | Except.error e => some (Except.error ("Failed to load image: " ++ e))
    | Except.ok img =>
      let marked : Option (Except String Raster) :=
        if config.watermark_type = "text" then
          mapErrPre "Failed to add text watermark: " (add_text_watermark ext img config)
        else if config.watermark_type = "image" then
          mapErrPre "Failed to add image watermark: " (add_image_watermark ext img config)
        else
          some (Except.error ("Invalid watermark type " ++ config.watermark_type ++
            ". Use text or image"))
      match marked with
      | none => none
      | some (Except.error e) => some (Except.error e)
      | some (Except.ok out) =>
        match ext.encodePng out with
        | Except.error e => some (Except.error ("Failed to encode image: " ++ e))
        | Except.ok png => some (Except.ok png)

/-- add_watermark (lib.rs 522-567): reject empty base image bytes, then the
common body. -/
def add_watermark (ext : Ext) (image_data : List Nat)
    (config_js : Except String WatermarkConfig) : Option (Except String (List Nat)) :=
  if image_data = [] then some (Except.error "Image data is empty")
  else watermarkCore ext image_data config_js

/-- add_watermark_async (lib.rs 570-612): the async twin performs no empty
check and no concurrent work; its body is the same common body. -/
def add_watermark_async (ext : Ext) (image_data : List Nat)
    (config_js : Except String WatermarkConfig) : Option (Except String (List Nat)) :=
  watermarkCore ext image_data config_js

/-- A concrete instantiation of the external collaborators, used to exercise
the pipeline theorems on closed inputs: the codec rejects every byte
string, resize and rotation cores are identities, encoding yields an empty
PNG byte string. -/
def extW : Ext where
  loadImage := fun _ => Except.error "no decoder"
  b64 := fun _ => Except.error "no b64"
  resizeFit := fun r _ _ => r
  rotCore := fun r _ => r
  encodePng := fun _ => Except.ok []

/-! Helper lemmas. -/

/-- Writing back the byte already stored at an index leaves a buffer
unchanged (also when the index is out of range, where set is a no-op). -/
theorem list_set_getD {α : Type} (l : List α) (n : Nat) (d : α) :
    l.set n (l[n]?.getD d) = l := by
  induction l generalizing n with
  | nil => simp
  | cons a t ih =>
    cases n with
    | zero => simp
    | succ m => simpa using ih m

/-- The f32 round trip byte -> f32 -> (as u8) is the identity. -/
theorem f2u8_byte (v : Fin 256) : f2u8 ((v.val : ℚ)) = v := by
  unfold f2u8
  have h0 : ¬((v.val : ℚ) < 0) := by
    exact not_lt.mpr (by exact_mod_cast Nat.zero_le v.val)
  rw [if_neg h0]
  by_cases h1 : v.val < 255
  · have h1q : ((v.val : ℚ)) < 255 := by exact_mod_cast h1
    rw [dif_pos h1q]
    apply Fin.ext
    simp [Int.floor_natCast]
  · have h2 : v.val = 255 := by omega
    have h1q : ¬(((v.val : ℚ)) < 255) := by rw [h2]; norm_num
    rw [dif_neg h1q]
    apply Fin.ext
    rw [h2]
    rfl

/-- With transparency factor 0 the main-loop pixel blend writes back exactly
the bytes that were already there. -/
theorem blendWrite_zero (odata : List (Fin 256)) (oidx tidx : Nat)
    (tdata : List (Fin 256)) : blendWrite odata 0 oidx tidx tdata = tdata := by
  unfold blendWrite byteQ
  simp only [mul_zero, zero_mul, mul_one, sub_zero, add_zero, zero_div, f2u8_byte,
    List.getD_eq_getElem?_getD, list_set_getD]

/-- The main row loop at transparency 0 is the identity. -/
theorem blendRowLoop_zero (odata : List (Fin 256)) (orow trow : Nat) :
    ∀ (k ox : Nat) (tdata : List (Fin 256)),
      blendRowLoop odata 0 orow trow k ox tdata = tdata := by
  intro k
  induction k with
  | zero => intro ox tdata; rfl
  | succ m ih => intro ox tdata; rw [blendRowLoop, blendWrite_zero]; exact ih _ _

/-- One row of the compositor at transparency 0 is the identity (the
trailing loop never runs: its fuel d - d is zero). -/
theorem blendRow_zero (odata : List (Fin 256)) (ow tw startX startY d oy : Nat)
    (tdata : List (Fin 256)) : blendRow odata 0 ow tw startX startY d oy tdata = tdata := by
  simp only [blendRow]
  rw [blendRowLoop_zero, Nat.sub_self]
  rfl

/-- The whole row iteration at transparency 0 is the identity. -/
theorem blendRows_zero (odata : List (Fin 256)) (ow tw startX startY d : Nat) :
    ∀ (k oy : Nat) (tdata : List (Fin 256)),
      blendRows odata 0 ow tw startX startY d k oy tdata = tdata := by
  intro k
  induction k with
  | zero => intro oy tdata; rfl
  | succ m ih => intro oy tdata; rw [blendRows, blendRow_zero]; exact ih _ _

/-! Claim theorems. -/

/-- C1: the Alpha Compositor is claimed to clip silently and return normally
for every non-negative offset, including offsets at or beyond the target
bounds.  This fails: with a 1 x 1 target, a 1 x 1 overlay and offset
(0, 2), the usize subtraction end_y - start_y = 1 - 2 underflows (a panic
in debug builds; in release builds the wrapped count makes the first row
index the 1 x 1 target at byte offset 8, out of bounds, which panics), so
the call does not return normally.  The model yields none (panic). -/
theorem c1_offset_beyond_bounds_panics :
    overlay_image_rgba_with_transparency ⟨1, 1, [255, 0, 0, 255]⟩
      ⟨1, 1, [0, 0, 255, 255]⟩ 0 2 (1/2) = none := rfl

/-- C2: preparing an image-type watermark with width set and a zero-width
source raster is claimed to fail with the zero-width-source hard error
before any height computation.  Instead the height computation runs first:
config.height.unwrap_or((orig_h * w) / orig_w) evaluates the division
eagerly for every value of config.height, so a zero original width makes
the u32 division panic (none) and the zero-width error branch on the next
source line is unreachable. -/
theorem c2_zero_width_panics_before_check (origH w : Nat) (ch : Option Nat) :
    prepare_size 0 origH w ch = none := by
  simp [prepare_size, checkedDiv]

/-- C3 counterexample: with original raster 2 x 1 and configured width 3
(height absent), the code computes height (1 * 3) / 2 = 1 by truncating
integer division, while round(1 * 3 / 2) = round(1.5) = 2, so the claimed
round-to-nearest is false at this input. -/
theorem c3_round_counterexample :
    prepare_size 2 1 3 none = some (Except.ok (3, 1)) ∧
    round ((1 * 3 : ℚ) / 2) = 2 ∧ (1 : ℤ) ≠ 2 := by
  refine ⟨rfl, ?_, by decide⟩
  norm_num [round_eq]

/-- C3 amended: for an image-type config with width w, height absent and
original width > 0 (and the u32 product not wrapping), the height passed to
the resize primitive is the truncating integer quotient
(orig_h * w) / orig_w, i.e. the floor of the exact ratio, not its rounding
to nearest. -/
theorem c3_truncating_height (origW origH w : Nat) (h0 : 0 < origW)
    (h1 : origH * w < 2^32) :
    prepare_size origW origH w none = some (Except.ok (w, origH * w / origW)) ∧
    origH * w / origW = ⌊(((origH * w : Nat) : ℚ)) / ((origW : Nat) : ℚ)⌋₊ := by
  have hne : origW ≠ 0 := Nat.pos_iff_ne_zero.mp h0
  have hmod : origH * w % 2^32 = origH * w := Nat.mod_eq_of_lt h1
  have hmod2 : origH * w % 4294967296 = origH * w := by omega
  constructor
  · simp [prepare_size, checkedDiv, hne, hmod, hmod2]
  · rw [Nat.floor_div_nat, Nat.floor_natCast]

/-- C3 witness: the amended statement instantiated at the counterexample
input 2 x 1 source, width 3. -/
theorem c3_truncating_height_witness :
    0 < 2 ∧ 1 * 3 < 2^32 ∧
    (prepare_size 2 1 3 none = some (Except.ok (3, 1 * 3 / 2)) ∧
      1 * 3 / 2 = ⌊(((1 * 3 : Nat) : ℚ)) / ((2 : Nat) : ℚ)⌋₊) :=
  ⟨by decide, by decide, c3_truncating_height 2 1 3 (by decide) (by decide)⟩

/-- C9: the Rotation Transform at angle 0 returns the input raster
unchanged: same object, hence same dimensions and pixel-identical
contents, for every choice of the resampling core. -/
theorem c9_rotation_zero_identity (core : Raster → ℚ → Raster) (img : Raster) :
    rotate_image core img 0 = img ∧
    (rotate_image core img 0).width = img.width ∧
    (rotate_image core img 0).height = img.height := by
  simp [rotate_image]

/-- C8: whenever the Alpha Compositor returns normally with transparency
factor 0, the target raster is returned exactly unchanged, all four
channels of every pixel included, for every target, overlay and offset. -/
theorem c8_transparency_zero (t o : Raster) (x y : Nat) (r : Raster)
    (h : overlay_image_rgba_with_transparency t o x y 0 = some r) : r = t := by
  unfold overlay_image_rgba_with_transparency at h
  split_ifs at h
  have h2 := Option.some.inj h
  rw [blendRows_zero] at h2
  exact h2.symm

/-- C8 witness: a concrete 1 x 1 compositing call at transparency 0 returns
normally with the target unchanged. -/
theorem c8_transparency_zero_witness :
    overlay_image_rgba_with_transparency ⟨1, 1, [10, 20, 30, 40]⟩
        ⟨1, 1, [50, 60, 70, 80]⟩ 0 0 0 = some ⟨1, 1, [10, 20, 30, 40]⟩ ∧
      (⟨1, 1, [10, 20, 30, 40]⟩ : Raster) = ⟨1, 1, [10, 20, 30, 40]⟩ := by
  have h : overlay_image_rgba_with_transparency ⟨1, 1, [10, 20, 30, 40]⟩
      ⟨1, 1, [50, 60, 70, 80]⟩ 0 0 0 = some ⟨1, 1, [10, 20, 30, 40]⟩ := by
    unfold overlay_image_rgba_with_transparency
    rw [if_neg (by decide), if_neg (by decide), blendRows_zero]
  exact ⟨h, c8_transparency_zero _ _ _ _ _ h⟩

/-- The per-pixel blend of the main loop is exactly the policy (b) blend. -/
theorem blendWrite_eq_B (odata : List (Fin 256)) (tau : ℚ) (oidx tidx : Nat)
    (tdata : List (Fin 256)) :
    blendWrite odata tau oidx tidx tdata = blendWriteB odata tau oidx tidx tdata := rfl

/-- The main row loop coincides with the single-policy row loop. -/
theorem blendRowLoop_eq_B (odata : List (Fin 256)) (tau : ℚ) (orow trow : Nat) :
    ∀ (k ox : Nat) (tdata : List (Fin 256)),
      blendRowLoop odata tau orow trow k ox tdata =
        blendRowLoopB odata tau orow trow k ox tdata := by
  intro k
  induction k with
  | zero => intro ox tdata; rfl
  | succ m ih =>
    intro ox tdata
    rw [blendRowLoop, blendRowLoopB, blendWrite_eq_B]
    exact ih _ _

/-- A full row coincides with the single-policy row: the trailing loop
resumes at ox = end_x - start_x with the same bound, so it has zero
iterations left and never executes its policy (a) body. -/
theorem blendRow_eq_B (odata : List (Fin 256)) (tau : ℚ)
    (ow tw startX startY d oy : Nat) (tdata : List (Fin 256)) :
    blendRow odata tau ow tw startX startY d oy tdata =
      blendRowB odata tau ow tw startX startY d oy tdata := by
  simp only [blendRow, blendRowB, Nat.sub_self]
  rw [blendRowLoop_eq_B]
  rfl

/-- The row iteration coincides with the single-policy row iteration. -/
theorem blendRows_eq_B (odata : List (Fin 256)) (tau : ℚ)
    (ow tw startX startY d : Nat) :
    ∀ (k oy : Nat) (tdata : List (Fin 256)),
      blendRows odata tau ow tw startX startY d k oy tdata =
        blendRowsB odata tau ow tw startX startY d k oy tdata := by
  intro k
  induction k with
  | zero => intro oy tdata; rfl
  | succ m ih =>
    intro oy tdata
    rw [blendRows, blendRowsB, blendRow_eq_B]
    exact ih _ _

/-- C10: the compositor coincides with its single-policy rendition: every
blended pixel updates the destination alpha by the policy (b) over
operator a_t + alpha*(255 - a_t)/255, and the trailing scalar loop (which
would treat alpha like an RGB channel, policy (a)) is unreachable because
the main loop already consumes the full row.  This holds for every target,
overlay, offset and transparency, hence across single and tiled
placements, which only differ in the offsets at which the compositor is
invoked. -/
theorem c10_alpha_policy (t o : Raster) (x y : Nat) (tau : ℚ) :
    overlay_image_rgba_with_transparency t o x y tau = overlayPolicyB t o x y tau := by
  unfold overlay_image_rgba_with_transparency overlayPolicyB
  split_ifs
  · rfl
  · rfl
  · rw [blendRows_eq_B]

/-! Bridge lemmas between the source validator conditions and the spec
rule list. -/

/-- An optional rational passes the closed-interval rule exactly when the
source predicate out-of-range test fails. -/
theorem bridge_q (o : Option ℚ) (lo hi : ℚ) :
    (o.all fun t => decide (lo ≤ t) && decide (t ≤ hi)) =
      !(o.any fun t => decide (t < lo) || decide (hi < t)) := by
  cases o with
  | none => rfl
  | some t =>
    show (decide (lo ≤ t) && decide (t ≤ hi)) = !(decide (t < lo) || decide (hi < t))
    by_cases h2 : t < lo
    · simp [h2, not_le.mpr h2]
    · by_cases h3 : hi < t
      · simp [h2, h3, not_le.mpr h3, not_lt.mp h2]
      · simp [h2, h3, not_lt.mp h2, not_lt.mp h3]

/-- An optional natural is positive exactly when the source zero test fails. -/
theorem bridge_nat (o : Option Nat) :
    (o.all fun w => decide (0 < w)) = !(o.any fun w => decide (w = 0)) := by
  cases o with
  | none => rfl
  | some w => cases w <;> simp

/-- isSome is the negation of the source isNone test. -/
theorem bridge_isSome (o : Option String) : o.isSome = !o.isNone := by
  cases o <;> rfl

/-- Swapping the branches of a negated boolean test. -/
theorem ite_not_bool (b : Bool) (A B : Except VErr Unit) :
    (if (!b) = true then A else B) = if b = true then B else A := by
  cases b <;> rfl

/-- A decided propositional test is the propositional if. -/
theorem ite_decide (P : Prop) [Decidable P] (A B : Except VErr Unit) :
    (if decide P = true then A else B) = if P then A else B := by
  by_cases h : P <;> simp [h]

/-- The source validator computes exactly the ordered five-rule first
failure of the spec. -/
theorem validate_eq_spec (c : WatermarkConfig) :
    validate_config c = spec_validate c := by
  unfold validate_config spec_validate specRules
  simp only [firstFailure, bridge_q, bridge_nat, bridge_isSome, ite_not_bool, ite_decide]
  by_cases h1 : c.watermark_type = "text" ∨ c.watermark_type = "image" <;> simp [h1]

/-- C5: validate_config is a pure function of the config computing the
spec's five ordered rules with first-failure semantics (the error tags
standing for the distinct messages built at each return site), and in
particular transparency 3/2 yields the transparency error, rotate 400 the
rotation error, type stamp the type error, and absent image_data the
missing-data error. -/
theorem c5_validator :
    (∀ c, validate_config c = spec_validate c) ∧
    validate_config ⟨"text", some (3/2), some 0, some 10, some 10, some false,
      some "d", none, none⟩ = Except.error VErr.invalidTransparency ∧
    validate_config ⟨"text", some (1/2), some 400, some 10, some 10, some false,
      some "d", none, none⟩ = Except.error VErr.invalidRotation ∧
    validate_config ⟨"stamp", some (1/2), some 0, some 10, some 10, some false,
      some "d", none, none⟩ = Except.error VErr.invalidType ∧
    validate_config ⟨"text", some (1/2), some 0, some 10, some 10, some false,
      none, none, none⟩ = Except.error VErr.missingWatermarkData :=
  ⟨validate_eq_spec, by norm_num [validate_config], by norm_num [validate_config],
    by
      have hty : ¬("stamp" = "text" ∨ "stamp" = "image") := by decide
      simp [validate_config, hty],
    by norm_num [validate_config]⟩

/-- C6: in single placement the compositor is invoked exactly once, at the
coordinate whose x equals x_offset when x_offset is non-negative and
max(0, base_width + x_offset) otherwise, symmetrically for y.  The
hypotheses record the domain on which the i32 cast of the base dimensions
is exact; every wasm32 raster satisfies them. -/
theorem c6_single_placement (imgW imgH wmW wmH : Nat) (xOff yOff : Int)
    (_hW : imgW < 2^31) (_hH : imgH < 2^31) :
    ∃ px py : Nat,
      placements imgW imgH wmW wmH xOff yOff false = [(px, py)] ∧
      (0 ≤ xOff → (px : Int) = xOff) ∧
      (xOff < 0 → (px : Int) = max 0 ((imgW : Int) + xOff)) ∧
      (0 ≤ yOff → (py : Int) = yOff) ∧
      (yOff < 0 → (py : Int) = max 0 ((imgH : Int) + yOff)) := by
  refine ⟨resolveSingle imgW xOff, resolveSingle imgH yOff, rfl, ?_, ?_, ?_, ?_⟩
  · intro h
    simp [resolveSingle, h, Int.toNat_of_nonneg]
  · intro h
    simp only [resolveSingle, if_neg (not_le.mpr h)]
    omega
  · intro h
    simp [resolveSingle, h, Int.toNat_of_nonneg]
  · intro h
    simp only [resolveSingle, if_neg (not_le.mpr h)]
    omega

/-- C6 witness: a 100 x 100 base with offsets (-5, 7) places the overlay
once, at (95, 7). -/
theorem c6_single_placement_witness :
    100 < 2^31 ∧
    (∃ px py : Nat,
      placements 100 100 10 10 (-5) 7 false = [(px, py)] ∧
      ((0 : Int) ≤ -5 → (px : Int) = -5) ∧
      ((-5 : Int) < 0 → (px : Int) = max 0 ((100 : Int) + -5)) ∧
      ((0 : Int) ≤ 7 → (py : Int) = 7) ∧
      ((7 : Int) < 0 → (py : Int) = max 0 ((100 : Int) + 7))) :=
  ⟨by decide, c6_single_placement 100 100 10 10 (-5) 7 (by decide) (by decide)⟩

/-- Membership in the fuel-based model of (start..stop).step_by(step): for a
positive step and sufficient fuel, exactly the arithmetic progression
values below stop. -/
theorem mem_stepRangeAux (step : Nat) (hs : 0 < step) :
    ∀ (fuel start stop a : Nat), stop - start ≤ fuel →
      (a ∈ stepRangeAux step fuel start stop ↔ ∃ i, a = start + i * step ∧ a < stop) := by
  intro fuel
  induction fuel with
  | zero =>
    intro start stop a hle
    simp only [stepRangeAux, List.not_mem_nil, false_iff]
    rintro ⟨i, rfl, hlt⟩
    omega
  | succ k ih =>
    intro start stop a hle
    rw [stepRangeAux]
    by_cases h : start < stop
    · rw [if_pos h]
      simp only [List.mem_cons]
      rw [ih (start + step) stop a (by omega)]
      constructor
      · rintro (rfl | ⟨i, rfl, hlt⟩)
        · exact ⟨0, by omega, h⟩
        · refine ⟨i + 1, ?_, hlt⟩
          rw [Nat.succ_mul]
          omega
      · rintro ⟨i, rfl, hlt⟩
        cases i with
        | zero => left; omega
        | succ j =>
          right
          refine ⟨j, ?_, hlt⟩
          rw [Nat.succ_mul] at hlt ⊢
          omega
    · rw [if_neg h]
      simp only [List.not_mem_nil, false_iff]
      rintro ⟨i, rfl, hlt⟩
      omega

/-- Membership in the step range itself. -/
theorem mem_stepRange (start stop step a : Nat) (hs : 0 < step) :
    a ∈ stepRange start stop step ↔ ∃ i, a = start + i * step ∧ a < stop :=
  mem_stepRangeAux step hs (stop - start) start stop a le_rfl

/-- The tiled placement grid contains exactly the cross product of the two
arithmetic progressions. -/
theorem mem_placements_tile (imgW imgH wmW wmH : Nat) (xOff yOff : Int)
    (p : Nat × Nat) (hx : 0 < wmW + xOff.natAbs) (hy : 0 < wmH + yOff.natAbs) :
    p ∈ placements imgW imgH wmW wmH xOff yOff true ↔
      ((∃ i, p.1 = (if 0 ≤ xOff then xOff.toNat else 0) + i * (wmW + xOff.natAbs) ∧
          p.1 < imgW) ∧
       (∃ j, p.2 = (if 0 ≤ yOff then yOff.toNat else 0) + j * (wmH + yOff.natAbs) ∧
          p.2 < imgH)) := by
  obtain ⟨px, py⟩ := p
  simp only [placements, if_true, List.mem_flatMap, List.mem_map, Prod.mk.injEq]
  constructor
  · rintro ⟨y, hyMem, x, hxMem, rfl, rfl⟩
    exact ⟨(mem_stepRange _ _ _ _ hx).mp hxMem, (mem_stepRange _ _ _ _ hy).mp hyMem⟩
  · rintro ⟨hxEx, hyEx⟩
    exact ⟨py, (mem_stepRange _ _ _ _ hy).mpr hyEx, px,
      (mem_stepRange _ _ _ _ hx).mpr hxEx, rfl, rfl⟩

/-- C7: in tiled placement the compositor is invoked exactly at the cross
product of the arithmetic progressions start, start + spacing, ... strictly
below the base dimensions, with spacing = overlay dimension + |offset| and
start = offset when non-negative else 0; and concretely a 50 x 50 base
with a 10 x 10 overlay at offsets (0, 0) gets exactly 25 placements that
cover the base fully with no gaps. -/
theorem c7_tiling :
    (∀ (imgW imgH wmW wmH : Nat) (xOff yOff : Int) (p : Nat × Nat),
      0 < wmW + xOff.natAbs → 0 < wmH + yOff.natAbs →
      (p ∈ placements imgW imgH wmW wmH xOff yOff true ↔
        ((∃ i, p.1 = (if 0 ≤ xOff then xOff.toNat else 0) + i * (wmW + xOff.natAbs) ∧
            p.1 < imgW) ∧
         (∃ j, p.2 = (if 0 ≤ yOff then yOff.toNat else 0) + j * (wmH + yOff.natAbs) ∧
            p.2 < imgH)))) ∧
    (placements 50 50 10 10 0 0 true).length = 25 ∧
    (∀ px py : Nat, px < 50 → py < 50 →
      ∃ q ∈ placements 50 50 10 10 0 0 true,
        q.1 ≤ px ∧ px < q.1 + 10 ∧ q.2 ≤ py ∧ py < q.2 + 10) := by
  refine ⟨fun imgW imgH wmW wmH xOff yOff p hx hy =>
    mem_placements_tile imgW imgH wmW wmH xOff yOff p hx hy, by decide, ?_⟩
  intro px py hpx hpy
  refine ⟨(px / 10 * 10, py / 10 * 10), ?_, by omega, by omega, by omega, by omega⟩
  rw [mem_placements_tile 50 50 10 10 0 0 _ (by decide) (by decide)]
  constructor
  · refine ⟨px / 10, ?_, by omega⟩
    simp only [Int.natAbs_zero, Int.toNat_zero, if_pos le_rfl]
    omega
  · refine ⟨py / 10, ?_, by omega⟩
    simp only [Int.natAbs_zero, Int.toNat_zero, if_pos le_rfl]
    omega

/-- C7 witness: the general grid characterization instantiated on a 50 x 50
base, 10 x 10 overlay, offsets (0, 0), at the point (5, 0), which is not a
tile corner. -/
theorem c7_tiling_witness :
    0 < 10 + (0 : Int).natAbs ∧
    ((5, 0) ∈ placements 50 50 10 10 0 0 true ↔
      ((∃ i, (5, 0).1 = (if (0 : Int) ≤ 0 then (0 : Int).toNat else 0) +
          i * (10 + (0 : Int).natAbs) ∧ (5, 0).1 < 50) ∧
       (∃ j, (5, 0).2 = (if (0 : Int) ≤ 0 then (0 : Int).toNat else 0) +
          j * (10 + (0 : Int).natAbs) ∧ (5, 0).2 < 50))) :=
  ⟨by decide, c7_tiling.1 50 50 10 10 0 0 (5, 0) (by decide) (by decide)⟩

/-- C4: the asynchronous entry point returns the same outcome as the
synchronous one on every input: identical PNG bytes on success, and an
error exactly when the synchronous path errors.  The hypothesis records
that the external codec rejects empty input (the only input on which the
two bodies differ textually: the synchronous path short-circuits empty
bytes, the asynchronous one lets the codec reject them). -/
theorem c4_async_equiv (ext : Ext) (bytes : List Nat)
    (cfgjs : Except String WatermarkConfig)
    (hE : ∃ s, ext.loadImage [] = Except.error s) :
    (∀ v, add_watermark ext bytes cfgjs = some (Except.ok v) ↔
      add_watermark_async ext bytes cfgjs = some (Except.ok v)) ∧
    ((∃ s, add_watermark ext bytes cfgjs = some (Except.error s)) ↔
      (∃ s, add_watermark_async ext bytes cfgjs = some (Except.error s))) := by
  by_cases hb : bytes = []
  · subst hb
    obtain ⟨s, hs⟩ := hE
    have hasync : ∃ e, add_watermark_async ext [] cfgjs = some (Except.error e) := by
      unfold add_watermark_async watermarkCore
      cases cfgjs with
      | error e => exact ⟨_, rfl⟩
      | ok config => rw [hs]; exact ⟨_, rfl⟩
    obtain ⟨e, he⟩ := hasync
    have hsync : add_watermark ext [] cfgjs =
        some (Except.error "Image data is empty") := rfl
    refine ⟨?_, ⟨fun _ => ⟨e, he⟩, fun _ => ⟨"Image data is empty", hsync⟩⟩⟩
    intro v
    rw [hsync, he]
    constructor
    · intro hcontra; exact absurd hcontra (by simp)
    · intro hcontra; exact absurd hcontra (by simp)
  · have hsame : add_watermark ext bytes cfgjs = add_watermark_async ext bytes cfgjs := by
      unfold add_watermark add_watermark_async
      rw [if_neg hb]
    rw [hsame]
    exact ⟨fun v => Iff.rfl, Iff.rfl⟩

/-- C4 witness: the equivalence instantiated on empty base bytes and a
parsed text-type config, with the collaborators extW. -/
theorem c4_async_equiv_witness :
    (∃ s, extW.loadImage [] = Except.error s) ∧
    ((∀ v, add_watermark extW []
        (Except.ok ⟨"text", none, none, none, none, none, some "d", none, none⟩) =
          some (Except.ok v) ↔
        add_watermark_async extW []
          (Except.ok ⟨"text", none, none, none, none, none, some "d", none, none⟩) =
            some (Except.ok v)) ∧
      ((∃ s, add_watermark extW []
          (Except.ok ⟨"text", none, none, none, none, none, some "d", none, none⟩) =
            some (Except.error s)) ↔
        (∃ s, add_watermark_async extW []
          (Except.ok ⟨"text", none, none, none, none, none, some "d", none, none⟩) =
            some (Except.error s)))) :=
  ⟨⟨"no decoder", rfl⟩,
    c4_async_equiv extW []
      (Except.ok ⟨"text", none, none, none, none, none, some "d", none, none⟩)
      ⟨"no decoder", rfl⟩⟩

end FW
